import Mathlib

/-!
Shallow embedding of `factchat_client_min.py`: a minimal client for the
FactChat HTTP API.  Python JSON-like values are modelled by `JValue`,
Python dicts by association lists (`PyDict`), Python runtime exceptions by
`Except PyError`.  The embedded operations follow the source line by line:
`router`, `build_payload`, `_parse_result` (here `parse_result`),
`FactChatClient.__init__` (here `initClient`) and the URL join performed
by `call` (here `callUrl`).
-/

/-- Python JSON-like values (the result of `response.json()` and the
values stored in payload dicts). -/
inductive JValue where
  | null
  | bool (b : Bool)
  | num (n : Int)
  | str (s : String)
  | arr (xs : List JValue)
  | obj (fields : List (String × JValue))

/-- A Python `Dict[str, Any]` as an insertion-ordered association list
(Python dicts have unique keys; lookups below take the first match). -/
abbrev PyDict := List (String × JValue)

/-- Python truthiness (`bool(v)`): `None`, `False`, `0`, `""`, `[]`, `{}`
are falsy, everything else truthy. -/
def truthy : JValue → Bool
  | .null => false
  | .bool b => b
  | .num n => n != 0
  | .str s => !s.isEmpty
  | .arr xs => !xs.isEmpty
  | .obj fs => !fs.isEmpty

/-- Python `a or b` on JSON-like values. -/
def pyOr (a b : JValue) : JValue := if truthy a then a else b

/-- `d.get(k)` / `d[k]` lookup: first (only) binding of `k`. -/
def dictGet? : PyDict → String → Option JValue
  | [], _ => none
  | (k', v) :: rest, k => if k' = k then some v else dictGet? rest k

/-- `d.get(k, default)`. -/
def dictGetD (d : PyDict) (k : String) (dflt : JValue) : JValue :=
  (dictGet? d k).getD dflt

/-- `k in d`. -/
def dictContains (d : PyDict) (k : String) : Bool :=
  (dictGet? d k).isSome

/-- `d[k] = v`: replace the binding of `k` in place, else append. -/
def dictSet : PyDict → String → JValue → PyDict
  | [], k, v => [(k, v)]
  | (k', v') :: rest, k, v =>
      if k' = k then (k', v) :: rest else (k', v') :: dictSet rest k v

/-- `d.update(kw)`: shallow overwrite-by-key merge of `kw` into `d`. -/
def dictUpdate (d : PyDict) (kw : PyDict) : PyDict :=
  kw.foldl (fun acc kv => dictSet acc kv.1 kv.2) d

/-- `d.pop(k, default)`: the popped value and the dict without `k`. -/
def dictPop : PyDict → String → JValue → JValue × PyDict
  | [], _, dflt => (dflt, [])
  | (k', v) :: rest, k, dflt =>
      if k' = k then (v, rest)
      else
        let (r, d') := dictPop rest k dflt
        (r, (k', v) :: d')

/-- Python runtime exceptions raised by the client. -/
inductive PyError where
  | unsupportedModel (model : String)
  | unsupportedProvider (provider : String)
  | configurationError
  | typeError
  | attributeError
  | keyError
  | indexError
deriving DecidableEq

/-- `x[0]` subscripting: lists yield their first element, strings their
first character, dicts raise `KeyError` (no integer key), everything else
`TypeError`. -/
def pyIndex0 : JValue → Except PyError JValue
  | .arr [] => .error .indexError
  | .arr (x :: _) => .ok x
  | .str s =>
      match s.data with
      | [] => .error .indexError
      | c :: _ => .ok (.str (String.mk [c]))
  | .obj _ => .error .keyError
  | _ => .error .typeError

/-- `v.get(k, default)` as a method call: only dicts have `.get`,
anything else raises `AttributeError`. -/
def pyGet (v : JValue) (k : String) (dflt : JValue) : Except PyError JValue :=
  match v with
  | .obj fs => .ok (dictGetD fs k dflt)
  | _ => .error .attributeError

/-- `c` begins with the pattern given first (`str.startswith` on char
lists). -/
def beginsWith : List Char → List Char → Bool
  | [], _ => true
  | _ :: _, [] => false
  | a :: pat, b :: rest => a == b && beginsWith pat rest

/-- Python `s.startswith(pre)`. -/
def pyStartswith (s pre : String) : Bool := beginsWith pre.data s.data

/-- Python `s.lower()` (ASCII case mapping, as used on model names). -/
def pyLower (s : String) : String := String.mk (s.data.map Char.toLower)

/-- Python `s.rstrip(c)` for a single strip character. -/
def pyRstrip (s : String) (c : Char) : String :=
  String.mk ((s.data.reverse.dropWhile (fun x => x == c)).reverse)

/-- Python `s.lstrip(c)` for a single strip character. -/
def pyLstrip (s : String) (c : Char) : String :=
  String.mk (s.data.dropWhile (fun x => x == c))

mutual

/-- Python `str(v)` rendering (`repr` for nested values), as produced by
`str(data)` in the fallback parse path. -/
def pyStr : JValue → String
  | .null => "None"
  | .bool true => "True"
  | .bool false => "False"
  | .num n => toString n
  | .str s => "'" ++ s ++ "'"
  | .arr xs => "[" ++ pyStrList xs ++ "]"
  | .obj fs => "\x7b" ++ pyStrFields fs ++ "\x7d"

/-- Comma-joined renderings of the elements of a Python list. -/
def pyStrList : List JValue → String
  | [] => ""
  | [x] => pyStr x
  | x :: xs => pyStr x ++ ", " ++ pyStrList xs

/-- Comma-joined `'key': value` renderings of the entries of a dict. -/
def pyStrFields : List (String × JValue) → String
  | [] => ""
  | [(k, v)] => "'" ++ k ++ "': " ++ pyStr v
  | (k, v) :: fs => "'" ++ k ++ "': " ++ pyStr v ++ ", " ++ pyStrFields fs

end

/-- `str(data)` for a decoded response body (a Python dict). -/
def pyStrDict (d : PyDict) : String := "\x7b" ++ pyStrFields d ++ "\x7d"

/-- The hard-coded default base address. -/
def DEFAULT_BASE : String := "https://factchat-cloud.mindlogic.ai/v1/api"

/-- `LLMResponse`: every model response normalized to a common shape.
Fields keep the (dynamically typed) Python values. -/
structure LLMResponse where
  text : JValue
  model : JValue
  usage : JValue
  finish_reason : JValue
  raw : PyDict

/-- `FactChatClient.router`: decide endpoint path and provider from the
model name; unsupported names raise `ValueError` carrying the name. -/
def router (model : String) : Except PyError (String × String) :=
  let m := pyLower model
  if pyStartswith m "claude-" then .ok ("anthropic/messages", "anthropic")
  else if pyStartswith m "gpt-" then .ok ("openai/chat/completions", "openai")
  else .error (.unsupportedModel model)

/-- `FactChatClient.build_payload`: build the provider-specific body.
For anthropic, `max_tokens` is popped from the kwargs with default 256;
then the remaining kwargs are shallow-merged over the payload. -/
def build_payload (model : String) (user_text : String) (kwargs : PyDict) :
    Except PyError PyDict :=
  match router model with
  | .error e => .error e
  | .ok (_, provider) =>
    if provider = "anthropic" then
      let popped := dictPop kwargs "max_tokens" (.num 256)
      let payload : PyDict :=
        [("model", .str model),
         ("max_tokens", popped.1),
         ("messages", .arr [.obj [("role", .str "user"), ("content", .str user_text)]])]
      .ok (dictUpdate payload popped.2)
    else if provider = "openai" then
      let payload : PyDict :=
        [("model", .str model),
         ("messages", .arr [.obj [("role", .str "user"), ("content", .str user_text)]])]
      .ok (dictUpdate payload kwargs)
    else
      .error (.unsupportedProvider provider)

/-- `FactChatClient._parse_result`: parse an OpenAI-style body when a
truthy `choices` entry is present, otherwise fall back to returning the
stringified body.  Exception propagation of the Python statements is made
explicit with `Except`. -/
def parse_result (_provider : String) (data : PyDict) : Except PyError LLMResponse :=
  if dictContains data "choices" && truthy (dictGetD data "choices" .null) then
    match pyIndex0 (dictGetD data "choices" .null) with
    | .error e => .error e
    | .ok c0 =>
      match pyGet c0 "message" (.obj []) with
      | .error e => .error e
      | .ok msgRaw =>
        match pyGet (pyOr msgRaw (.obj [])) "content" (.str "") with
        | .error e => .error e
        | .ok textRaw =>
          match pyIndex0 (dictGetD data "choices" .null) with
          | .error e => .error e
          | .ok c0' =>
            match pyGet c0' "finish_reason" .null with
            | .error e => .error e
            | .ok finish =>
              .ok ⟨pyOr textRaw (.str ""),
                   pyOr (dictGetD data "model" (.str "")) (.str ""),
                   pyOr (dictGetD data "usage" (.obj [])) (.obj []),
                   finish, data⟩
  else
    .ok ⟨.str (pyStrDict data),
         dictGetD data "model" (.str ""),
         pyOr (dictGetD data "usage" (.obj [])) (.obj []),
         .null, data⟩

/-- Python `a or b` on optional strings (`None` and `""` are falsy). -/
def optOr (a b : Option String) : Option String :=
  match a with
  | some s => if s.isEmpty then b else some s
  | none => b

/-- The configuration held by a constructed `FactChatClient`. -/
structure FactChatClient where
  api_key : String
  base_url : String
  timeout : Int

/-- `FactChatClient.__init__`: resolve the credential from the explicit
argument, else the `FACTCHAT_API_KEY` environment value; raise
`RuntimeError` when the resolved credential is falsy.  Resolve the base
address from the argument, else `FACTCHAT_BASE_URL`, else `DEFAULT_BASE`,
and strip its trailing slashes. -/
def initClient (api_key_arg env_api_key base_url_arg env_base_url : Option String)
    (timeout : Int) : Except PyError FactChatClient :=
  match optOr api_key_arg env_api_key with
  | none => .error .configurationError
  | some k =>
      if k.isEmpty then .error .configurationError
      else
        let base0 :=
          match optOr base_url_arg env_base_url with
          | none => DEFAULT_BASE
          | some s => if s.isEmpty then DEFAULT_BASE else s
        .ok ⟨k, pyRstrip base0 '/', timeout⟩

/-- The target URL built by `FactChatClient.call`:
`f"{self.base_url}/{path.lstrip('/')}"`. -/
def callUrl (c : FactChatClient) (path : String) : String :=
  c.base_url ++ "/" ++ pyLstrip path '/'

/-- A run of `n` slash characters, for stating the URL-join property. -/
def slashes (n : Nat) : String := String.mk (List.replicate n '/')

/-- The shape condition under which `_parse_result` is exception-free:
whenever the `choices` value is present and truthy it is a non-empty list
whose first element is a dict, and that dict's `message` value, when
present and truthy, is itself a dict. -/
def goodShape (data : PyDict) : Prop :=
  ∀ v, dictGet? data "choices" = some v → truthy v = true →
    ∃ c0f rest, v = .arr (.obj c0f :: rest) ∧
      ∀ m, dictGet? c0f "message" = some m → truthy m = true →
        ∃ mf, m = .obj mf

theorem truthy_arr_cons (x : JValue) (xs : List JValue) :
    truthy (.arr (x :: xs)) = true := rfl

theorem empty_isEmpty : "".isEmpty = true := rfl

theorem dictGet_eq_none (d : PyDict) (k : String) (h : k ∉ d.map Prod.fst) :
    dictGet? d k = none := by
  induction d with
  | nil => rfl
  | cons kv rest ih =>
    obtain ⟨k0, v0⟩ := kv
    simp only [List.map_cons, List.mem_cons, not_or] at h
    simp [dictGet?, Ne.symm h.1, ih h.2]

theorem dictGet_set (d : PyDict) (k : String) (v : JValue) (k' : String) :
    dictGet? (dictSet d k v) k' = if k = k' then some v else dictGet? d k' := by
  induction d with
  | nil => simp [dictSet, dictGet?]
  | cons kv rest ih =>
    obtain ⟨k0, v0⟩ := kv
    by_cases h0 : k0 = k
    · subst h0
      by_cases h1 : k0 = k' <;> simp [dictSet, dictGet?, h1]
    · by_cases h1 : k0 = k'
      · subst h1
        simp [dictSet, dictGet?, h0, Ne.symm h0]
      · simp [dictSet, dictGet?, h0, h1, ih]

theorem dictUpdate_cons (d : PyDict) (k0 : String) (v0 : JValue) (kw : PyDict) :
    dictUpdate d ((k0, v0) :: kw) = dictUpdate (dictSet d k0 v0) kw := rfl

theorem dictGet_update (d kw : PyDict) (hnd : (kw.map Prod.fst).Nodup) (k : String) :
    dictGet? (dictUpdate d kw) k = (dictGet? kw k).or (dictGet? d k) := by
  induction kw generalizing d with
  | nil => simp [dictUpdate, dictGet?]
  | cons kv rest ih =>
    obtain ⟨k0, v0⟩ := kv
    simp only [List.map_cons, List.nodup_cons] at hnd
    rw [dictUpdate_cons, ih _ hnd.2]
    by_cases h : k0 = k
    · subst h
      rw [dictGet_eq_none rest k0 hnd.1]
      simp [dictGet?, dictGet_set]
    · simp [dictGet?, h, dictGet_set]

theorem dictPop_fst (d : PyDict) (k : String) (dflt : JValue) :
    (dictPop d k dflt).1 = dictGetD d k dflt := by
  induction d with
  | nil => rfl
  | cons kv rest ih =>
    obtain ⟨k0, v0⟩ := kv
    by_cases h : k0 = k <;> simp [dictPop, dictGetD, dictGet?, h]
    · simpa [dictGetD] using ih

theorem dictPop_snd_sublist (d : PyDict) (k : String) (dflt : JValue) :
    (dictPop d k dflt).2.Sublist d := by
  induction d with
  | nil => simp [dictPop]
  | cons kv rest ih =>
    obtain ⟨k0, v0⟩ := kv
    by_cases h : k0 = k
    · simp [dictPop, h]
    · simpa [dictPop, h] using ih

theorem dictPop_snd_nodup (d : PyDict) (k : String) (dflt : JValue)
    (hnd : (d.map Prod.fst).Nodup) : ((dictPop d k dflt).2.map Prod.fst).Nodup :=
  ((dictPop_snd_sublist d k dflt).map Prod.fst).nodup hnd

theorem dictPop_snd_get (d : PyDict) (k : String) (dflt : JValue) (k' : String)
    (hnd : (d.map Prod.fst).Nodup) :
    dictGet? (dictPop d k dflt).2 k' = if k = k' then none else dictGet? d k' := by
  induction d with
  | nil => simp [dictPop, dictGet?]
  | cons kv rest ih =>
    obtain ⟨k0, v0⟩ := kv
    simp only [List.map_cons, List.nodup_cons] at hnd
    by_cases h : k0 = k
    · subst h
      by_cases h1 : k0 = k'
      · subst h1
        simp [dictPop, dictGet?, dictGet_eq_none rest k0 hnd.1]
      · simp [dictPop, dictGet?, h1]
    · by_cases h1 : k0 = k'
      · subst h1
        simp [dictPop, h, dictGet?, Ne.symm h]
      · simp [dictPop, h, dictGet?, h1, ih hnd.2]

theorem startswith_gpt_not_claude (s : String) (h : pyStartswith s "gpt-" = true) :
    pyStartswith s "claude-" = false := by
  unfold pyStartswith at h ⊢
  rw [show "gpt-".data = ['g', 'p', 't', '-'] from rfl] at h
  rw [show "claude-".data = ['c', 'l', 'a', 'u', 'd', 'e', '-'] from rfl]
  cases hl : s.data with
  | nil => rw [hl] at h; simp [beginsWith] at h
  | cons a as =>
    rw [hl] at h
    simp only [beginsWith, Bool.and_eq_true, beq_iff_eq] at h
    rw [← h.1]
    simp only [beginsWith]
    rw [show ('c' == 'g') = false from rfl]
    simp

/-- Claim C1: a model name whose lower-cased form begins with `claude-`
routes to `("anthropic/messages", "anthropic")`; one beginning with
`gpt-` routes to `("openai/chat/completions", "openai")`; any other
model name makes `router` fail with `UnsupportedModel` carrying the
original model string. -/
theorem router_claim (m : String) :
    (pyStartswith (pyLower m) "claude-" = true →
       router m = .ok ("anthropic/messages", "anthropic")) ∧
    (pyStartswith (pyLower m) "gpt-" = true →
       router m = .ok ("openai/chat/completions", "openai")) ∧
    (pyStartswith (pyLower m) "claude-" = false →
       pyStartswith (pyLower m) "gpt-" = false →
       router m = .error (.unsupportedModel m)) := by
  refine ⟨fun h => ?_, fun h => ?_, fun h1 h2 => ?_⟩
  · simp [router, h]
  · simp [router, startswith_gpt_not_claude _ h, h]
  · simp [router, h1, h2]

/-- Witness for C1 at three concrete model names (mixed case on the
supported families, and an unsupported one). -/
theorem router_claim_witness :
    router "Claude-3-Opus" = .ok ("anthropic/messages", "anthropic") ∧
    router "GPT-4o" = .ok ("openai/chat/completions", "openai") ∧
    router "mistral-7b" = .error (.unsupportedModel "mistral-7b") :=
  ⟨(router_claim "Claude-3-Opus").1 rfl,
   (router_claim "GPT-4o").2.1 rfl,
   (router_claim "mistral-7b").2.2 rfl rfl⟩

/-- Claim C6: construction resolves the credential from the explicit
argument first, from the environment when the argument is absent, and
fails with the configuration error when no source yields a (truthy)
credential; the constructor is a pure function of its configuration
inputs, so no transport invocation can occur. -/
theorem initClient_credential (arg envk barg benv : Option String) (t : Int) :
    (∀ s, arg = some s → s.isEmpty = false →
       ∃ c, initClient arg envk barg benv t = .ok c ∧ c.api_key = s) ∧
    (arg = none → ∀ s, envk = some s → s.isEmpty = false →
       ∃ c, initClient arg envk barg benv t = .ok c ∧ c.api_key = s) ∧
    ((arg = none ∨ arg = some "") → (envk = none ∨ envk = some "") →
       initClient arg envk barg benv t = .error .configurationError) := by
  refine ⟨?_, ?_, ?_⟩
  · rintro s rfl hs
    simp [initClient, optOr, hs]
  · rintro rfl s rfl hs
    simp [initClient, optOr, hs]
  · rintro (rfl | rfl) (rfl | rfl) <;> simp [initClient, optOr, empty_isEmpty]

/-- Witness for C6: explicit credential wins; environment credential is
used when the argument is absent; with neither, construction fails. -/
theorem initClient_credential_witness :
    (∃ c, initClient (some "sk-test") none none none 60 = .ok c ∧
       c.api_key = "sk-test") ∧
    (∃ c, initClient none (some "env-key") none none 60 = .ok c ∧
       c.api_key = "env-key") ∧
    initClient none none none none 60 = .error .configurationError :=
  ⟨(initClient_credential (some "sk-test") none none none 60).1 "sk-test" rfl rfl,
   (initClient_credential none (some "env-key") none none 60).2.1 rfl "env-key" rfl rfl,
   (initClient_credential none none none none 60).2.2 (Or.inl rfl) (Or.inl rfl)⟩

/-- Claim C10: an explicit empty-string credential behaves exactly like
passing no credential argument (fall back to the environment), and when
the environment credential is also absent or empty, construction fails
with the same configuration error. -/
theorem init_empty_key (envk barg benv : Option String) (t : Int) :
    initClient (some "") envk barg benv t = initClient none envk barg benv t ∧
    ((envk = none ∨ envk = some "") →
       initClient (some "") envk barg benv t = .error .configurationError) := by
  constructor
  · simp [initClient, optOr, empty_isEmpty]
  · rintro (rfl | rfl) <;> simp [initClient, optOr, empty_isEmpty]

/-- Witness for C10 at concrete environments. -/
theorem init_empty_key_witness :
    initClient (some "") (some "k") none none 60 =
      initClient none (some "k") none none 60 ∧
    initClient (some "") (some "") none none 60 = .error .configurationError :=
  ⟨(init_empty_key (some "k") none none 60).1,
   (init_empty_key (some "") none none 60).2 (Or.inr rfl)⟩

/-- Claim C3: for an Anthropic-style model name, the payload contains the
model name, `max_tokens` defaulting to 256 when the caller supplied none,
and the single user-role message wrapping the prompt; every
caller-supplied extra field ends up in the body with the caller's value
taking precedence over the builder's defaults (including `max_tokens`
and `messages`). -/
theorem build_payload_anthropic_claim (model user_text : String) (kwargs : PyDict)
    (hm : pyStartswith (pyLower model) "claude-" = true)
    (hnd : (kwargs.map Prod.fst).Nodup) :
    ∃ p, build_payload model user_text kwargs = .ok p ∧
      (dictGet? kwargs "model" = none → dictGet? p "model" = some (.str model)) ∧
      (dictGet? kwargs "max_tokens" = none →
         dictGet? p "max_tokens" = some (.num 256)) ∧
      (dictGet? kwargs "messages" = none →
         dictGet? p "messages" =
           some (.arr [.obj [("role", .str "user"), ("content", .str user_text)]])) ∧
      (∀ k v, dictGet? kwargs k = some v → dictGet? p k = some v) := by
  have hr : router model = .ok ("anthropic/messages", "anthropic") := by
    simp [router, hm]
  have hnd2 : ((dictPop kwargs "max_tokens" (.num 256)).2.map Prod.fst).Nodup :=
    dictPop_snd_nodup kwargs _ _ hnd
  have hb : build_payload model user_text kwargs =
      .ok (dictUpdate
        [("model", .str model),
         ("max_tokens", (dictPop kwargs "max_tokens" (.num 256)).1),
         ("messages", .arr [.obj [("role", .str "user"), ("content", .str user_text)]])]
        (dictPop kwargs "max_tokens" (.num 256)).2) := by
    unfold build_payload
    rw [hr]
    simp
  refine ⟨_, hb, ?_, ?_, ?_, ?_⟩
  · intro h
    rw [dictGet_update _ _ hnd2, dictPop_snd_get kwargs "max_tokens" (.num 256) _ hnd]
    simp [dictGet?, h]
  · intro h
    rw [dictGet_update _ _ hnd2, dictPop_snd_get kwargs "max_tokens" (.num 256) _ hnd]
    simp [dictGet?, dictPop_fst, dictGetD, h]
  · intro h
    rw [dictGet_update _ _ hnd2, dictPop_snd_get kwargs "max_tokens" (.num 256) _ hnd]
    simp [dictGet?, h]
  · intro k v hkv
    rw [dictGet_update _ _ hnd2, dictPop_snd_get kwargs "max_tokens" (.num 256) _ hnd]
    by_cases hk : "max_tokens" = k
    · subst hk
      simp [dictGet?, dictPop_fst, dictGetD, hkv]
    · simp [hk, hkv]

/-- Witness for C3: a caller-supplied `max_tokens` of 10 overrides the
default 256, while the un-overridden fields keep their defaults. -/
theorem build_payload_anthropic_witness :
    ∃ p, build_payload "claude-3-opus" "ping" [("max_tokens", .num 10)] = .ok p ∧
      dictGet? p "max_tokens" = some (.num 10) ∧
      dictGet? p "model" = some (.str "claude-3-opus") ∧
      dictGet? p "messages" =
        some (.arr [.obj [("role", .str "user"), ("content", .str "ping")]]) := by
  obtain ⟨p, hp, hmodel, _, hmsg, hmerge⟩ :=
    build_payload_anthropic_claim "claude-3-opus" "ping" [("max_tokens", .num 10)]
      rfl (by simp)
  exact ⟨p, hp, hmerge "max_tokens" (.num 10) rfl, hmodel rfl, hmsg rfl⟩

/-- Claim C8: for an OpenAI-style model name, the payload contains the
model name and the single user-role message, caller-supplied extra
fields are shallow-merged in with precedence, and no `max_tokens`
default is injected: the body has a `max_tokens` key exactly when the
caller supplied one. -/
theorem build_payload_openai_claim (model user_text : String) (kwargs : PyDict)
    (hm : pyStartswith (pyLower model) "gpt-" = true)
    (hnd : (kwargs.map Prod.fst).Nodup) :
    ∃ p, build_payload model user_text kwargs = .ok p ∧
      (dictGet? kwargs "model" = none → dictGet? p "model" = some (.str model)) ∧
      (dictGet? kwargs "messages" = none →
         dictGet? p "messages" =
           some (.arr [.obj [("role", .str "user"), ("content", .str user_text)]])) ∧
      (∀ k v, dictGet? kwargs k = some v → dictGet? p k = some v) ∧
      dictContains p "max_tokens" = dictContains kwargs "max_tokens" := by
  have hr : router model = .ok ("openai/chat/completions", "openai") := by
    simp [router, startswith_gpt_not_claude _ hm, hm]
  have hb : build_payload model user_text kwargs =
      .ok (dictUpdate
        [("model", .str model),
         ("messages", .arr [.obj [("role", .str "user"), ("content", .str user_text)]])]
        kwargs) := by
    unfold build_payload
    rw [hr]
    simp
  refine ⟨_, hb, ?_, ?_, ?_, ?_⟩
  · intro h
    rw [dictGet_update _ _ hnd]
    simp [dictGet?, h]
  · intro h
    rw [dictGet_update _ _ hnd]
    simp [dictGet?, h]
  · intro k v hkv
    rw [dictGet_update _ _ hnd]
    simp [hkv]
  · rw [dictContains, dictContains, dictGet_update _ _ hnd]
    simp [dictGet?]

theorem pyOr_obj (fs : PyDict) : pyOr (.obj fs) (.obj []) = .obj fs := by
  cases fs <;> simp [pyOr, truthy]

theorem parse_primary_eq (p : String) (data : PyDict) (c0f : PyDict) (rest : List JValue)
    (hc : dictGet? data "choices" = some (.arr (.obj c0f :: rest))) :
    parse_result p data =
      match pyGet (pyOr (dictGetD c0f "message" (.obj [])) (.obj [])) "content" (.str "") with
      | .error e => .error e
      | .ok textRaw =>
          .ok ⟨pyOr textRaw (.str ""),
               pyOr (dictGetD data "model" (.str "")) (.str ""),
               pyOr (dictGetD data "usage" (.obj [])) (.obj []),
               dictGetD c0f "finish_reason" .null, data⟩ := by
  unfold parse_result
  have h1 : dictContains data "choices" = true := by simp [dictContains, hc]
  have h2 : dictGetD data "choices" .null = .arr (.obj c0f :: rest) := by
    simp [dictGetD, hc]
  rw [h1, h2]
  cases hMv : pyOr (dictGetD c0f "message" (.obj [])) (.obj []) <;>
    simp [truthy, pyIndex0, pyGet, hMv]

theorem parse_primary_ok (p : String) (data : PyDict) (c0f : PyDict) (rest : List JValue)
    (hc : dictGet? data "choices" = some (.arr (.obj c0f :: rest)))
    (hmsg : ∀ m, dictGet? c0f "message" = some m → truthy m = true → ∃ mf, m = .obj mf) :
    ∃ t, parse_result p data =
        .ok ⟨t, pyOr (dictGetD data "model" (.str "")) (.str ""),
             pyOr (dictGetD data "usage" (.obj [])) (.obj []),
             dictGetD c0f "finish_reason" .null, data⟩ ∧
      (dictGet? c0f "message" = none → t = .str "") ∧
      (∀ mf c, dictGet? c0f "message" = some (.obj mf) →
         dictGet? mf "content" = some c → truthy c = true → t = c) ∧
      (∀ mf, dictGet? c0f "message" = some (.obj mf) →
         dictGet? mf "content" = none → t = .str "") := by
  rw [parse_primary_eq p data c0f rest hc]
  cases hm : dictGet? c0f "message" with
  | none =>
    refine ⟨.str "", ?_, fun _ => rfl, ?_, ?_⟩
    · simp [dictGetD, hm, pyOr, truthy, pyGet, dictGet?]
    · intro mf c hmm
      exact Option.noConfusion hmm
    · intro mf hmm
      exact Option.noConfusion hmm
  | some mv =>
    by_cases htm : truthy mv = true
    · obtain ⟨mf, rfl⟩ := hmsg mv hm htm
      refine ⟨pyOr (dictGetD mf "content" (.str "")) (.str ""), ?_, ?_, ?_, ?_⟩
      · simp [dictGetD, hm, pyOr, htm, pyGet]
      · intro hno
        exact Option.noConfusion hno
      · intro mf' c hmm hcc htc
        simp only [Option.some.injEq, JValue.obj.injEq] at hmm
        subst hmm
        simp [dictGetD, hcc, pyOr, htc]
      · intro mf' hmm hcc
        simp only [Option.some.injEq, JValue.obj.injEq] at hmm
        subst hmm
        simp [dictGetD, hcc, pyOr, truthy]
    · refine ⟨.str "", ?_, ?_, ?_, ?_⟩
      · simp [dictGetD, hm, pyOr, htm, pyGet, dictGet?]
      · intro hno
        exact Option.noConfusion hno
      · intro mf c hmm hcc htc
        simp only [Option.some.injEq] at hmm
        subst hmm
        cases mf with
        | nil => exact Option.noConfusion hcc
        | cons kv fs => simp [truthy] at htm
      · intro mf hmm hcc
        rfl

/-- Claim C4 (amended): for a body whose first choice is a mapping, and
whose `message` value (when present and truthy) is itself a mapping, the
Normalizer takes the first choice and returns: `text` equal to the
choice's nested message content when that content is present and truthy
(the empty string when it is absent), `finishReason` equal to the
choice's `finish_reason` (null when absent), `usage` equal to the
top-level `usage` mapping (empty when absent), `modelEcho` equal to the
top-level `model` string (empty when absent), and `raw` equal to the
whole body.  The restriction to mapping-shaped choices is forced: on a
first choice that is not a mapping the code raises instead of returning
(see the counterexample). -/
theorem parse_choices_claim (p : String) (data : PyDict) (c0f : PyDict) (rest : List JValue)
    (hc : dictGet? data "choices" = some (.arr (.obj c0f :: rest)))
    (hmsg : ∀ m, dictGet? c0f "message" = some m → truthy m = true → ∃ mf, m = .obj mf) :
    ∃ r, parse_result p data = .ok r ∧
      (dictGet? c0f "message" = none → r.text = .str "") ∧
      (∀ mf c, dictGet? c0f "message" = some (.obj mf) →
         dictGet? mf "content" = some c → truthy c = true → r.text = c) ∧
      (∀ mf, dictGet? c0f "message" = some (.obj mf) →
         dictGet? mf "content" = none → r.text = .str "") ∧
      (∀ f, dictGet? c0f "finish_reason" = some f → r.finish_reason = f) ∧
      (dictGet? c0f "finish_reason" = none → r.finish_reason = .null) ∧
      (∀ uf, dictGet? data "usage" = some (.obj uf) → r.usage = .obj uf) ∧
      (dictGet? data "usage" = none → r.usage = .obj []) ∧
      (∀ s, dictGet? data "model" = some (.str s) → r.model = .str s) ∧
      (dictGet? data "model" = none → r.model = .str "") ∧
      r.raw = data := by
  obtain ⟨t, hok, h1, h2, h3⟩ := parse_primary_ok p data c0f rest hc hmsg
  refine ⟨_, hok, h1, h2, h3, ?_, ?_, ?_, ?_, ?_, ?_, rfl⟩
  · intro f hf
    simp [dictGetD, hf]
  · intro hf
    simp [dictGetD, hf]
  · intro uf hu
    show pyOr (dictGetD data "usage" (.obj [])) (.obj []) = .obj uf
    rw [dictGetD, hu]
    exact pyOr_obj uf
  · intro hu
    simp [dictGetD, hu, pyOr, truthy]
  · intro s hs
    show pyOr (dictGetD data "model" (.str "")) (.str "") = .str s
    rw [dictGetD, hs]
    by_cases hse : s.isEmpty = true
    · rw [(String.isEmpty_iff s).mp hse]
      rfl
    · simp [pyOr, truthy, hse]
  · intro hs
    simp [dictGetD, hs, pyOr, truthy]

/-- Counterexample to C4 as stated: the body
`{"choices": ["x"]}` has a non-empty `choices` list, yet `_parse_result`
raises `AttributeError` (a string has no `.get`) instead of returning a
result. -/
theorem parse_choices_counterexample :
    parse_result "openai" [("choices", .arr [.str "x"])] =
      .error .attributeError := rfl

/-- Witness for C4 at the body from the spec:
`{"choices":[{"message":{"content":"pong"},"finish_reason":"stop"}],
  "usage":{"total_tokens":5},"model":"gpt-5-mini"}`. -/
theorem parse_choices_claim_witness :
    ∃ r, parse_result "openai"
        [("choices", .arr [.obj [("message", .obj [("content", .str "pong")]),
                                 ("finish_reason", .str "stop")]]),
         ("usage", .obj [("total_tokens", .num 5)]),
         ("model", .str "gpt-5-mini")] = .ok r ∧
      r.text = .str "pong" ∧ r.finish_reason = .str "stop" ∧
      r.usage = .obj [("total_tokens", .num 5)] ∧
      r.model = .str "gpt-5-mini" := by
  obtain ⟨r, hok, _, h2, _, h4, _, h6, _, h8, _, _⟩ :=
    parse_choices_claim "openai"
      [("choices", .arr [.obj [("message", .obj [("content", .str "pong")]),
                               ("finish_reason", .str "stop")]]),
       ("usage", .obj [("total_tokens", .num 5)]),
       ("model", .str "gpt-5-mini")]
      [("message", .obj [("content", .str "pong")]), ("finish_reason", .str "stop")]
      [] rfl
      (by
        intro m hm htm
        exact ⟨_, (Option.some.inj hm).symm⟩)
  exact ⟨r, hok, h2 _ _ rfl rfl (by decide), h4 _ rfl, h6 _ rfl, h8 _ rfl⟩

/-- Claim C2 (amended): `_parse_result` never fails on any body in
which, whenever the `choices` value is present and truthy, it is a
non-empty list whose first element is a mapping whose `message` value
(when present and truthy) is a mapping; on such bodies it returns a
result carrying the original body in `raw`.  Outside that shape the code
does raise (see the counterexample), so graceful degradation does not
extend to every well-formed body. -/
theorem parse_total (provider : String) (data : PyDict) (h : goodShape data) :
    ∃ r, parse_result provider data = .ok r ∧ r.raw = data := by
  cases hcond : (dictContains data "choices" && truthy (dictGetD data "choices" .null)) with
  | false =>
    refine ⟨⟨.str (pyStrDict data), dictGetD data "model" (.str ""),
            pyOr (dictGetD data "usage" (.obj [])) (.obj []), .null, data⟩, ?_, rfl⟩
    unfold parse_result
    rw [hcond]
    simp
  | true =>
    rw [Bool.and_eq_true] at hcond
    obtain ⟨hcont, htr⟩ := hcond
    obtain ⟨v, hv⟩ := Option.isSome_iff_exists.mp hcont
    have hgd : dictGetD data "choices" .null = v := by simp [dictGetD, hv]
    rw [hgd] at htr
    obtain ⟨c0f, rest, rfl, hmsg⟩ := h v hv htr
    obtain ⟨t, hok, -, -, -⟩ := parse_primary_ok provider data c0f rest hv hmsg
    exact ⟨_, hok, rfl⟩

/-- Counterexample to C2 as stated: the well-formed body
`{"choices": [5]}` makes `_parse_result` raise `AttributeError`
(an int has no `.get`), so the Normalizer does not succeed on every
well-formed body. -/
theorem parse_total_counterexample :
    parse_result "openai" [("choices", .arr [.num 5])] =
      .error .attributeError := rfl

/-- Witness for C2 on an Anthropic-style body with no `choices` key. -/
theorem parse_total_witness :
    ∃ r, parse_result "anthropic" [("id", .str "msg_1"), ("content", .arr [])] = .ok r ∧
      r.raw = [("id", .str "msg_1"), ("content", .arr [])] :=
  parse_total "anthropic" _ (fun _ hv _ => Option.noConfusion hv)

/-- Claim C9: in the primary parse path, `null` values are coerced to
defaults, not only absent keys: a `null` `message`, a `null` `content`,
a `null` top-level `usage`, and a `null` top-level `model` yield the
empty string / empty mapping in the corresponding field. -/
theorem parse_null_coercion (p : String) (data : PyDict) (c0f : PyDict) (rest : List JValue)
    (hc : dictGet? data "choices" = some (.arr (.obj c0f :: rest))) :
    (dictGet? c0f "message" = some .null →
       ∃ r, parse_result p data = .ok r ∧ r.text = .str "") ∧
    (∀ mf, dictGet? c0f "message" = some (.obj mf) → dictGet? mf "content" = some .null →
       ∃ r, parse_result p data = .ok r ∧ r.text = .str "") ∧
    (dictGet? data "usage" = some .null →
       ∀ r, parse_result p data = .ok r → r.usage = .obj []) ∧
    (dictGet? data "model" = some .null →
       ∀ r, parse_result p data = .ok r → r.model = .str "") := by
  refine ⟨?_, ?_, ?_, ?_⟩
  · intro hm
    rw [parse_primary_eq p data c0f rest hc]
    refine ⟨⟨.str "", pyOr (dictGetD data "model" (.str "")) (.str ""),
            pyOr (dictGetD data "usage" (.obj [])) (.obj []),
            dictGetD c0f "finish_reason" .null, data⟩, ?_, rfl⟩
    simp [dictGetD, hm, pyOr, truthy, pyGet, dictGet?]
  · intro mf hm hcn
    rw [parse_primary_eq p data c0f rest hc]
    have hmf : truthy (JValue.obj mf) = true := by
      cases mf with
      | nil => exact Option.noConfusion hcn
      | cons kv fs => simp [truthy]
    refine ⟨⟨.str "", pyOr (dictGetD data "model" (.str "")) (.str ""),
            pyOr (dictGetD data "usage" (.obj [])) (.obj []),
            dictGetD c0f "finish_reason" .null, data⟩, ?_, rfl⟩
    have hmsgv : dictGetD c0f "message" (.obj []) = .obj mf := by
      simp [dictGetD, hm]
    rw [hmsgv, show pyOr (JValue.obj mf) (.obj []) = .obj mf from by simp [pyOr, hmf],
        show pyGet (JValue.obj mf) "content" (.str "") =
          .ok (dictGetD mf "content" (.str "")) from rfl,
        show dictGetD mf "content" (.str "") = .null from by simp [dictGetD, hcn]]
    simp [pyOr, truthy]
  · intro hu r hr
    rw [parse_primary_eq p data c0f rest hc] at hr
    cases hM : pyGet (pyOr (dictGetD c0f "message" (.obj [])) (.obj [])) "content" (.str "") with
    | error e =>
      rw [hM] at hr
      cases hr
    | ok t =>
      rw [hM] at hr
      cases hr
      simp [dictGetD, hu, pyOr, truthy]
  · intro hmo r hr
    rw [parse_primary_eq p data c0f rest hc] at hr
    cases hM : pyGet (pyOr (dictGetD c0f "message" (.obj [])) (.obj [])) "content" (.str "") with
    | error e =>
      rw [hM] at hr
      cases hr
    | ok t =>
      rw [hM] at hr
      cases hr
      simp [dictGetD, hmo, pyOr, truthy]

/-- Witness for C9: a body with `message`, `usage` and `model` all
`null` yields empty-string text, empty usage and empty model echo. -/
theorem parse_null_coercion_witness :
    ∃ r, parse_result "anthropic"
        [("choices", .arr [.obj [("message", .null)]]),
         ("usage", .null), ("model", .null)] = .ok r ∧
      r.text = .str "" ∧ r.usage = .obj [] ∧ r.model = .str "" := by
  obtain ⟨h1, -, h3, h4⟩ :=
    parse_null_coercion "anthropic"
      [("choices", .arr [.obj [("message", .null)]]), ("usage", .null), ("model", .null)]
      [("message", .null)] [] rfl
  obtain ⟨r, hok, ht⟩ := h1 rfl
  exact ⟨r, hok, ht, h3 rfl r hok, h4 rfl r hok⟩

/-- Claim C5: whenever the primary `choices` shape is not recognized
(no `choices` key, or a falsy `choices` value), the Normalizer returns
`text` equal to the stringified rendering of the entire body, `usage`
equal to the top-level usage mapping when present (empty otherwise), no
finish reason, `modelEcho` equal to the top-level model when present
(empty otherwise); and in every successful parse, primary or fallback,
`raw` is the complete original body. -/
theorem parse_fallback_claim (p : String) (data : PyDict) :
    ((dictContains data "choices" && truthy (dictGetD data "choices" .null)) = false →
       ∃ r, parse_result p data = .ok r ∧
         r.text = .str (pyStrDict data) ∧
         (∀ uf, dictGet? data "usage" = some (.obj uf) → r.usage = .obj uf) ∧
         (dictGet? data "usage" = none → r.usage = .obj []) ∧
         r.finish_reason = .null ∧
         (∀ mo, dictGet? data "model" = some mo → r.model = mo) ∧
         (dictGet? data "model" = none → r.model = .str "") ∧
         r.raw = data) ∧
    (∀ r, parse_result p data = .ok r → r.raw = data) := by
  constructor
  · intro h
    refine ⟨⟨.str (pyStrDict data), dictGetD data "model" (.str ""),
            pyOr (dictGetD data "usage" (.obj [])) (.obj []), .null, data⟩,
            ?_, rfl, ?_, ?_, rfl, ?_, ?_, rfl⟩
    · unfold parse_result
      rw [h]
      simp
    · intro uf hu
      show pyOr (dictGetD data "usage" (.obj [])) (.obj []) = .obj uf
      rw [dictGetD, hu]
      exact pyOr_obj uf
    · intro hu
      simp [dictGetD, hu, pyOr, truthy]
    · intro mo hmo
      simp [dictGetD, hmo]
    · intro hmo
      simp [dictGetD, hmo]
  · intro r hr
    unfold parse_result at hr
    repeat' split at hr
    all_goals first
      | exact Except.noConfusion hr
      | (simp only [Except.ok.injEq] at hr
         subst hr
         rfl)

/-- Witness for C5 on an Anthropic-style body with no `choices` key. -/
theorem parse_fallback_witness :
    ∃ r, parse_result "anthropic" [("model", .str "claude-3"), ("usage", .null)] = .ok r ∧
      r.text = .str (pyStrDict [("model", .str "claude-3"), ("usage", .null)]) ∧
      r.finish_reason = .null ∧ r.model = .str "claude-3" ∧
      r.raw = [("model", .str "claude-3"), ("usage", .null)] := by
  obtain ⟨h1, -⟩ :=
    parse_fallback_claim "anthropic" [("model", .str "claude-3"), ("usage", .null)]
  obtain ⟨r, hok, ht, -, -, hf, hm, -, hraw⟩ := h1 rfl
  exact ⟨r, hok, ht, hf, hm _ rfl, hraw⟩

/-- Witness for C8: no `max_tokens` appears without the caller asking for
it, and a caller-supplied `temperature` is merged in. -/
theorem build_payload_openai_witness :
    ∃ p, build_payload "gpt-5-mini" "ping" [("temperature", .num 1)] = .ok p ∧
      dictGet? p "model" = some (.str "gpt-5-mini") ∧
      dictGet? p "messages" =
        some (.arr [.obj [("role", .str "user"), ("content", .str "ping")]]) ∧
      dictGet? p "temperature" = some (.num 1) ∧
      dictContains p "max_tokens" = false := by
  obtain ⟨p, hp, hmodel, hmsg, hmerge, hmt⟩ :=
    build_payload_openai_claim "gpt-5-mini" "ping" [("temperature", .num 1)]
      rfl (by simp)
  exact ⟨p, hp, hmodel rfl, hmsg rfl, hmerge "temperature" (.num 1) rfl, hmt⟩

theorem dropWhile_replicate_append (c : Char) (n : Nat) (l : List Char) :
    List.dropWhile (fun x => x == c) (List.replicate n c ++ l) =
      List.dropWhile (fun x => x == c) l := by
  induction n with
  | zero => rfl
  | succ k ih => simp [List.replicate_succ, List.dropWhile_cons, ih]

theorem dropWhile_of_head_ne (c : Char) (l : List Char) (h : l.head? ≠ some c) :
    List.dropWhile (fun x => x == c) l = l := by
  cases l with
  | nil => rfl
  | cons a as =>
    have hac : (a == c) = false := by
      rw [beq_eq_false_iff_ne]
      intro hq
      exact h (by simp [hq])
    simp [List.dropWhile_cons, hac]

theorem pyRstrip_append_slashes (b : String) (n : Nat)
    (hb : b.data.getLast? ≠ some '/') :
    pyRstrip (b ++ slashes n) '/' = b := by
  apply String.ext
  show ((b ++ slashes n).data.reverse.dropWhile (fun x => x == '/')).reverse = b.data
  rw [String.data_append, show (slashes n).data = List.replicate n '/' from rfl,
      List.reverse_append, List.reverse_replicate, dropWhile_replicate_append,
      dropWhile_of_head_ne '/' b.data.reverse (by rw [List.head?_reverse]; exact hb)]
  exact List.reverse_reverse _

theorem pyLstrip_append_slashes (p : String) (m : Nat)
    (hp : p.data.head? ≠ some '/') :
    pyLstrip (slashes m ++ p) '/' = p := by
  apply String.ext
  show (slashes m ++ p).data.dropWhile (fun x => x == '/') = p.data
  rw [String.data_append, show (slashes m).data = List.replicate m '/' from rfl,
      dropWhile_replicate_append]
  exact dropWhile_of_head_ne '/' p.data hp

/-- Claim C7: for any non-empty base address carrying any number of
trailing slashes, and any routed endpoint path carrying any number of
leading slashes, the URL built by `call` is the trailing-slash-free base,
exactly one separating slash, and the leading-slash-free path: no doubled
and no missing slash at the join point. -/
theorem call_url_join (b p key : String) (n m : Nat) (t : Int)
    (hkey : key.isEmpty = false)
    (hbase : (b ++ slashes n).isEmpty = false)
    (hb : b.data.getLast? ≠ some '/')
    (hp : p.data.head? ≠ some '/') :
    ∃ c, initClient (some key) none (some (b ++ slashes n)) none t = .ok c ∧
      callUrl c (slashes m ++ p) = b ++ "/" ++ p := by
  refine ⟨⟨key, pyRstrip (b ++ slashes n) '/', t⟩, ?_, ?_⟩
  · simp [initClient, optOr, hkey, hbase]
  · show pyRstrip (b ++ slashes n) '/' ++ "/" ++ pyLstrip (slashes m ++ p) '/' =
      b ++ "/" ++ p
    rw [pyRstrip_append_slashes b n hb, pyLstrip_append_slashes p m hp]

/-- Witness for C7: a base with two trailing slashes joined to a routed
path with three leading slashes yields exactly one separating slash. -/
theorem call_url_join_witness :
    ∃ c, initClient (some "sk-1") none (some ("https://h/v1" ++ slashes 2)) none 60 =
        .ok c ∧
      callUrl c (slashes 3 ++ "openai/chat/completions") =
        "https://h/v1" ++ "/" ++ "openai/chat/completions" :=
  call_url_join "https://h/v1" "openai/chat/completions" "sk-1" 2 3 60
    (by decide) (by decide) (by decide) (by decide)
